import Mathlib

/-!
Verification development for the YetAnotherUnityMcp bridge
(`src/server/low_level_tcp_client.py`, `src/server/connection_manager.py`,
`src/server/dynamic_tools.py`).

Modelling conventions:
* wire bytes are `Nat` values (each `< 256` on a real socket);
* Python `str` values are represented either by their UTF-8 byte sequence
  (`List Nat`) or by their code points (`List Nat`) / `List Char`, as noted
  at each definition;
* Python exceptions are modelled with `Option`/`Except`;
* blocking, timeouts and the event loop are modelled by making the data a
  function reads (socket bytes, operation outcomes) an explicit argument.
-/

namespace YAUM

/-! ### Python string helpers -/

/-- The code points stripped by Python `str.strip()` (the `str.isspace` set). -/
def pyWhitespace : List Nat :=
  [9, 10, 11, 12, 13, 28, 29, 30, 31, 32, 133, 160, 5760,
   8192, 8193, 8194, 8195, 8196, 8197, 8198, 8199, 8200, 8201, 8202,
   8232, 8233, 8239, 8287, 12288]

def isPyWs (c : Nat) : Bool := pyWhitespace.contains c

/-- Python `str.strip()` on a list of code points. -/
def pyStrip (cs : List Nat) : List Nat :=
  ((cs.dropWhile isPyWs).reverse.dropWhile isPyWs).reverse

/-- Code points of a Lean string literal (all our literals are ASCII). -/
def strCodes (s : String) : List Nat := s.toList.map Char.toNat

/-! ### UTF-8 (strict, as Python's `bytes.decode('utf-8')` / `str.encode('utf-8')`) -/

def isCont (b : Nat) : Bool := 0x80 ≤ b && b ≤ 0xBF

/-- Strict UTF-8 decoding of a byte list into code points.  Overlong forms,
surrogates and code points above `0x10FFFF` are rejected, exactly as
CPython's strict `utf-8` codec does. -/
def utf8Decode : List Nat → Option (List Nat)
  | [] => some []
  | b :: rest =>
    if b ≤ 0x7F then
      (utf8Decode rest).map (fun cs => b :: cs)
    else if 0xC2 ≤ b && b ≤ 0xDF then
      match rest with
      | c1 :: r =>
        if isCont c1 then
          (utf8Decode r).map (fun cs => ((b - 0xC0) * 0x40 + (c1 - 0x80)) :: cs)
        else none
      | [] => none
    else if 0xE0 ≤ b && b ≤ 0xEF then
      match rest with
      | c1 :: c2 :: r =>
        let lo1 := if b = 0xE0 then 0xA0 else 0x80
        let hi1 := if b = 0xED then 0x9F else 0xBF
        if lo1 ≤ c1 && c1 ≤ hi1 && isCont c2 then
          (utf8Decode r).map
            (fun cs => ((b - 0xE0) * 0x1000 + (c1 - 0x80) * 0x40 + (c2 - 0x80)) :: cs)
        else none
      | _ => none
    else if 0xF0 ≤ b && b ≤ 0xF4 then
      match rest with
      | c1 :: c2 :: c3 :: r =>
        let lo1 := if b = 0xF0 then 0x90 else 0x80
        let hi1 := if b = 0xF4 then 0x8F else 0xBF
        if lo1 ≤ c1 && c1 ≤ hi1 && isCont c2 && isCont c3 then
          (utf8Decode r).map
            (fun cs => ((b - 0xF0) * 0x40000 + (c1 - 0x80) * 0x1000 +
                        (c2 - 0x80) * 0x40 + (c3 - 0x80)) :: cs)
        else none
      | _ => none
    else none

/-- UTF-8 encoding of one code point. -/
def utf8EncodeChar (c : Nat) : List Nat :=
  if c ≤ 0x7F then [c]
  else if c ≤ 0x7FF then [0xC0 + c / 0x40, 0x80 + c % 0x40]
  else if c ≤ 0xFFFF then
    [0xE0 + c / 0x1000, 0x80 + (c / 0x40) % 0x40, 0x80 + c % 0x40]
  else
    [0xF0 + c / 0x40000, 0x80 + (c / 0x1000) % 0x40,
     0x80 + (c / 0x40) % 0x40, 0x80 + c % 0x40]

/-- UTF-8 bytes of a Lean string literal, as Python's `s.encode('utf-8')`. -/
def utf8EncodeStr (s : String) : List Nat := (strCodes s).flatMap utf8EncodeChar

/-! ### JSON values and `json.loads`

The registrar and the framing layer both call Python's `json.loads`; we model
it with a recursive-descent parser over `List Char`, following CPython's
`json` module: its number regex, its `NaN`/`Infinity`/`-Infinity` constants,
strict rejection of raw control characters in strings, and `\uXXXX` escapes
with surrogate-pair combination.  (Python keeps *lone* surrogates as
unpaired characters; those have no `Char` representation here and are
rejected — no claim depends on them.)  Non-integral numeric literals are kept
verbatim (constructor `flt`) since no claim computes with floats. -/

inductive JVal where
  | null
  | bool (b : Bool)
  | int (n : Int)
  | flt (raw : List Char)
  | str (s : List Char)
  | arr (xs : List JVal)
  | obj (fs : List (List Char × JVal))

mutual

/-- Structural equality test on JSON values (used for Python `in` on the
registrar's name-keyed dicts). -/
def JVal.beq : JVal → JVal → Bool
  | .null, .null => true
  | .bool a, .bool b => a == b
  | .int a, .int b => a == b
  | .flt a, .flt b => a == b
  | .str a, .str b => a == b
  | .arr xs, .arr ys => JVal.beqList xs ys
  | .obj fs, .obj gs => JVal.beqFields fs gs
  | _, _ => false

def JVal.beqList : List JVal → List JVal → Bool
  | [], [] => true
  | x :: xs, y :: ys => JVal.beq x y && JVal.beqList xs ys
  | _, _ => false

def JVal.beqFields : List (List Char × JVal) → List (List Char × JVal) → Bool
  | [], [] => true
  | f :: fs, g :: gs => f.1 == g.1 && JVal.beq f.2 g.2 && JVal.beqFields fs gs
  | _, _ => false

end

instance : BEq JVal := ⟨JVal.beq⟩

/-- Python dict lookup for the dict built from a JSON object: on duplicate
keys the later binding wins. -/
def jlookup (fs : List (List Char × JVal)) (k : List Char) : Option JVal :=
  fs.foldl (fun acc p => if p.1 = k then some p.2 else acc) none

/-- Python `k in d` for the dict built from a JSON object. -/
def hasKey (fs : List (List Char × JVal)) (k : List Char) : Bool :=
  fs.any (fun p => p.1 = k)

/-- Python truthiness of a decoded JSON value.  For a float literal the
mantissa decides (digits in the exponent do not), and `NaN`/`Infinity`
are truthy. -/
def pyTruthy : JVal → Bool
  | .null => false
  | .bool b => b
  | .int n => n != 0
  | .flt raw =>
      (raw.takeWhile (fun c => !(c = 'e' || c = 'E'))).any
        (fun c => '1' ≤ c && c ≤ '9')
      || raw.contains 'I' || raw.contains 'N'
  | .str s => !s.isEmpty
  | .arr xs => !xs.isEmpty
  | .obj fs => !fs.isEmpty

def jsonWsChar (c : Char) : Bool := c = ' ' || c = '\t' || c = '\n' || c = '\r'

def skipWs : List Char → List Char
  | [] => []
  | c :: cs => if jsonWsChar c then skipWs cs else c :: cs

def isDigitChar (c : Char) : Bool := '0' ≤ c && c ≤ '9'

def hexDigitVal (c : Char) : Option Nat :=
  if '0' ≤ c && c ≤ '9' then some (c.toNat - 48)
  else if 'a' ≤ c && c ≤ 'f' then some (c.toNat - 87)
  else if 'A' ≤ c && c ≤ 'F' then some (c.toNat - 55)
  else none

def hex4 (a b c d : Char) : Option Nat :=
  match hexDigitVal a, hexDigitVal b, hexDigitVal c, hexDigitVal d with
  | some x, some y, some z, some w => some (x * 4096 + y * 256 + z * 16 + w)
  | _, _, _, _ => none

def escapeChar (e : Char) : Option Char :=
  if e = Char.ofNat 34 then some (Char.ofNat 34)
  else if e = Char.ofNat 92 then some (Char.ofNat 92)
  else if e = '/' then some '/'
  else if e = 'b' then some (Char.ofNat 8)
  else if e = 'f' then some (Char.ofNat 12)
  else if e = 'n' then some (Char.ofNat 10)
  else if e = 'r' then some (Char.ofNat 13)
  else if e = 't' then some (Char.ofNat 9)
  else none

/-- Body of a JSON string, after the opening quote: returns the decoded
characters and the input after the closing quote. -/
def parseStringBody : List Char → Option (List Char × List Char)
  | [] => none
  | c :: cs =>
    if c = Char.ofNat 34 then some ([], cs)
    else if c = Char.ofNat 92 then
      match cs with
      | [] => none
      | e :: cs2 =>
        if e = 'u' then
          match cs2 with
          | h1 :: h2 :: h3 :: h4 :: cs3 =>
            match hex4 h1 h2 h3 h4 with
            | none => none
            | some n =>
              if 0xD800 ≤ n && n ≤ 0xDBFF then
                match cs3 with
                | b1 :: b2 :: h5 :: h6 :: h7 :: h8 :: cs4 =>
                  if b1 = Char.ofNat 92 && b2 = 'u' then
                    match hex4 h5 h6 h7 h8 with
                    | some m =>
                      if 0xDC00 ≤ m && m ≤ 0xDFFF then
                        (parseStringBody cs4).map (fun p =>
                          (Char.ofNat (0x10000 + (n - 0xD800) * 0x400 + (m - 0xDC00)) :: p.1,
                           p.2))
                      else none
                    | none => none
                  else none
                | _ => none
              else if 0xDC00 ≤ n && n ≤ 0xDFFF then none
              else (parseStringBody cs3).map (fun p => (Char.ofNat n :: p.1, p.2))
          | _ => none
        else
          match escapeChar e with
          | some ch => (parseStringBody cs2).map (fun p => (ch :: p.1, p.2))
          | none => none
    else if c.toNat < 0x20 then none
    else (parseStringBody cs).map (fun p => (c :: p.1, p.2))

def digitsToNat (ds : List Char) : Nat := ds.foldl (fun a c => a * 10 + (c.toNat - 48)) 0

/-- Optional fraction part `.digits`, consumed only when complete
(as CPython's number regex does). -/
def tryFrac (s : List Char) : Option (List Char × List Char) :=
  match s with
  | c :: rest =>
    if c = '.' then
      let (ds, r) := rest.span isDigitChar
      if ds.isEmpty then none else some ('.' :: ds, r)
    else none
  | [] => none

/-- Optional exponent part `[eE][+-]?digits`, consumed only when complete. -/
def tryExp (s : List Char) : Option (List Char × List Char) :=
  match s with
  | c :: rest =>
    if c = 'e' || c = 'E' then
      match rest with
      | k :: kr =>
        if k = '+' || k = '-' then
          let (ds, r2) := kr.span isDigitChar
          if ds.isEmpty then none else some (c :: k :: ds, r2)
        else
          let (ds, r2) := rest.span isDigitChar
          if ds.isEmpty then none else some (c :: ds, r2)
      | [] => none
    else none
  | [] => none

/-- CPython json number literal: `-?(0|[1-9]\d*)(\.\d+)?([eE][+-]?\d+)?`;
integral literals become Python `int`, others `float` (kept verbatim). -/
def parseNumber (s : List Char) : Option (JVal × List Char) :=
  let signed : Bool × List Char :=
    match s with
    | c :: rest => if c = '-' then (true, rest) else (false, s)
    | [] => (false, s)
  match signed.2 with
  | [] => none
  | c :: rest =>
    if !(isDigitChar c) then none
    else
      let intRes : List Char × List Char :=
        if c = '0' then ([c], rest)
        else
          let (ds, r) := rest.span isDigitChar
          (c :: ds, r)
      let idigits := intRes.1
      let afterInt := intRes.2
      let sgn : List Char := if signed.1 then ['-'] else []
      match tryFrac afterInt with
      | some (f, r1) =>
        match tryExp r1 with
        | some (e, r2) => some (.flt (sgn ++ idigits ++ f ++ e), r2)
        | none => some (.flt (sgn ++ idigits ++ f), r1)
      | none =>
        match tryExp afterInt with
        | some (e, r2) => some (.flt (sgn ++ idigits ++ e), r2)
        | none =>
          let v : Int := Int.ofNat (digitsToNat idigits)
          some (.int (if signed.1 then -v else v), afterInt)

mutual

/-- One JSON value at the current (whitespace-free) position. -/
def parseVal : Nat → List Char → Option (JVal × List Char)
  | 0, _ => none
  | fuel + 1, s =>
    match s with
    | [] => none
    | c :: cs =>
      if c = Char.ofNat 34 then
        match parseStringBody cs with
        | some (t, rest) => some (.str t, rest)
        | none => none
      else if c = Char.ofNat 123 then
        parseObjStart fuel (skipWs cs)
      else if c = '[' then
        parseArrStart fuel (skipWs cs)
      else if c = 'n' then
        match s with
        | 'n' :: 'u' :: 'l' :: 'l' :: rest => some (.null, rest)
        | _ => none
      else if c = 't' then
        match s with
        | 't' :: 'r' :: 'u' :: 'e' :: rest => some (.bool true, rest)
        | _ => none
      else if c = 'f' then
        match s with
        | 'f' :: 'a' :: 'l' :: 's' :: 'e' :: rest => some (.bool false, rest)
        | _ => none
      else if c = 'N' then
        match s with
        | 'N' :: 'a' :: 'N' :: rest => some (.flt (("NaN").toList), rest)
        | _ => none
      else if c = 'I' then
        match s with
        | 'I' :: 'n' :: 'f' :: 'i' :: 'n' :: 'i' :: 't' :: 'y' :: rest =>
          some (.flt (("Infinity").toList), rest)
        | _ => none
      else if c = '-' then
        match parseNumber s with
        | some r => some r
        | none =>
          match s with
          | '-' :: 'I' :: 'n' :: 'f' :: 'i' :: 'n' :: 'i' :: 't' :: 'y' :: rest =>
            some (.flt (("-Infinity").toList), rest)
          | _ => none
      else if isDigitChar c then parseNumber s
      else none

/-- After `[` and whitespace: empty array or element list. -/
def parseArrStart : Nat → List Char → Option (JVal × List Char)
  | 0, _ => none
  | fuel + 1, s =>
    match s with
    | ']' :: rest => some (.arr [], rest)
    | _ =>
      match parseArrElems fuel s with
      | some (vs, rest) => some (.arr vs, rest)
      | none => none

/-- One-or-more comma-separated array elements, ending at `]`. -/
def parseArrElems : Nat → List Char → Option (List JVal × List Char)
  | 0, _ => none
  | fuel + 1, s =>
    match parseVal fuel s with
    | none => none
    | some (v, rest) =>
      match skipWs rest with
      | ',' :: r2 =>
        match parseArrElems fuel (skipWs r2) with
        | some (vs, r3) => some (v :: vs, r3)
        | none => none
      | ']' :: r2 => some ([v], r2)
      | _ => none

/-- After the object opener and whitespace: empty object or member list. -/
def parseObjStart : Nat → List Char → Option (JVal × List Char)
  | 0, _ => none
  | fuel + 1, s =>
    match s with
    | [] => none
    | c :: rest =>
      if c = Char.ofNat 125 then some (.obj [], rest)
      else
        match parseObjMembers fuel s with
        | some (ms, r) => some (.obj ms, r)
        | none => none

/-- One-or-more `"key": value` members, ending at the object closer. -/
def parseObjMembers : Nat → List Char → Option (List (List Char × JVal) × List Char)
  | 0, _ => none
  | fuel + 1, s =>
    match s with
    | [] => none
    | c :: cs =>
      if c = Char.ofNat 34 then
        match parseStringBody cs with
        | none => none
        | some (k, r1) =>
          match skipWs r1 with
          | ':' :: r2 =>
            match parseVal fuel (skipWs r2) with
            | none => none
            | some (v, r3) =>
              match skipWs r3 with
              | ',' :: r4 =>
                match parseObjMembers fuel (skipWs r4) with
                | some (ms, r5) => some ((k, v) :: ms, r5)
                | none => none
              | c2 :: r4 => if c2 = Char.ofNat 125 then some ([(k, v)], r4) else none
              | [] => none
          | _ => none
      else none

end

/-- Python `json.loads` on decoded text: one value, then only trailing
whitespace.  The fuel bound is generous; parsing consumes input at every
recursion step, so it never cuts a parse short. -/
def jsonLoads (text : List Char) : Option JVal :=
  match parseVal (2 * text.length + 2) (skipWs text) with
  | some (v, rest) => if skipWs rest = [] then some v else none
  | none => none

/-! ### Framed transport (`src/server/low_level_tcp_client.py`)

`_send_frame` (lines 213-244) and `_receive_frame` (lines 246-370) over the
byte stream.  Socket reads are modelled by the byte list itself: running out
of bytes stands for `IncompleteReadError` (which the code maps to `None`),
and the read-timeout retry loop is invisible at this level. -/

def START_MARKER : Nat := 2
def END_MARKER : Nat := 3
def MAX_FRAME_BYTES : Nat := 10 * 1024 * 1024

/-- The 4-byte little-endian length prefix written by `struct.pack("<I", n)`. -/
def le4 (n : Nat) : List Nat :=
  [n % 256, n / 256 % 256, n / 65536 % 256, n / 16777216 % 256]

/-- `_send_frame`: STX, 4-byte little-endian byte length, payload, ETX.
`message_bytes` is the UTF-8 encoding of the outgoing text. -/
def send_frame (message_bytes : List Nat) : List Nat :=
  START_MARKER :: le4 message_bytes.length ++ message_bytes ++ [END_MARKER]

/-- The start-marker scan of `_receive_frame` (lines 257-293): read byte by
byte, up to 1000 bytes, until STX; running out of input is a closed
connection. -/
def scan_start : Nat → List Nat → Option (List Nat)
  | _, [] => none
  | fuel, b :: rest =>
    if fuel = 0 then none
    else if b = START_MARKER then some rest
    else scan_start (fuel - 1) rest

/-- The end-marker recovery of `_receive_frame` lines 324-341: a frame whose
end byte is `0x7D` is still accepted when its payload decodes as UTF-8,
strips to text ending in the closing-brace character, and parses as JSON. -/
def json_recover_ok (message_bytes : List Nat) : Bool :=
  match utf8Decode message_bytes with
  | none => false
  | some cps =>
    ((pyStrip cps).getLast? == some 125) &&
    (jsonLoads (cps.map Char.ofNat)).isSome

/-- `_receive_frame` on the pending byte stream: scan to STX, read and
sanity-check the 4-byte length, read the payload, then validate the end
marker (with the `0x7D`/JSON special case).  The returned Python `str` is
represented by its UTF-8 bytes. -/
def receive_frame (input : List Nat) : Option (List Nat) :=
  match scan_start 1000 input with
  | none => none
  | some rest =>
    match rest with
    | b0 :: b1 :: b2 :: b3 :: rest2 =>
      let n := b0 + 256 * b1 + 65536 * b2 + 16777216 * b3
      if n = 0 || n > MAX_FRAME_BYTES then none
      else if rest2.length < n then none
      else
        match rest2.drop n with
        | [] => none
        | e :: _ =>
          let msg := rest2.take n
          if e = END_MARKER then
            match utf8Decode msg with
            | some _ => some msg
            | none => none
          else if e = 125 then
            if json_recover_ok msg then some msg else none
          else none
    | _ => none

/-! ### Handshake (`_perform_handshake`, lines 168-211) -/

def HANDSHAKE_REQUEST : String := "YAUM_HANDSHAKE_REQUEST"
def HANDSHAKE_RESPONSE : String := "YAUM_HANDSHAKE_RESPONSE"

/-- The bytes the client writes during connect (line 177/183): the UTF-8
encoding of `HANDSHAKE_REQUEST`, with no terminator. -/
def handshake_request_bytes : List Nat := utf8EncodeStr HANDSHAKE_REQUEST

/-- `_perform_handshake`, as a function of the outcome of the bounded
`reader.read(1024)`: `none` stands for the 5-second timeout or a socket
error (both return `False`); otherwise the bytes are UTF-8 decoded,
stripped, and compared to `HANDSHAKE_RESPONSE`. -/
def perform_handshake (read_result : Option (List Nat)) : Bool :=
  match read_result with
  | none => false
  | some bs =>
    match utf8Decode bs with
    | none => false
    | some cps => pyStrip cps == strCodes HANDSHAKE_RESPONSE

/-! ### Request Envelope (`send_command`, lines 445-498)

The JSON object written to the wire: keys in insertion order; the
`parameters` key is added only when the `parameters` argument is truthy
(line 473), i.e. a non-`None`, non-empty mapping. -/

def key_id : List Char := ("id").toList
def key_command : List Char := ("command").toList
def key_client_timestamp : List Char := ("client_timestamp").toList
def key_parameters : List Char := ("parameters").toList

def build_request (request_id command : List Char) (client_timestamp : Int)
    (parameters : Option (List (List Char × JVal))) : List (List Char × JVal) :=
  let base := [(key_id, JVal.str request_id), (key_command, JVal.str command),
               (key_client_timestamp, JVal.int client_timestamp)]
  match parameters with
  | some ps => if ps.isEmpty then base else base ++ [(key_parameters, JVal.obj ps)]
  | none => base

/-! ### Pending slots, disconnect and the receive loop
(`disconnect` lines 130-166, `_receive_messages` lines 500-593)

`futures` is every response future a `send_command` caller holds, keyed by
request id; `pending_ids` is the key set of `self.pending_requests`
(a future stays visible to its caller after it leaves the map). -/

inductive Fut where
  | pending
  | resolved (v : JVal)
  | failed (msg : List Char)

structure TcpClientState where
  connected : Bool
  futures : List (List Char × Fut)
  pending_ids : List (List Char)

/-- Lines 160-163: every not-yet-done pending future gets
`Exception("Disconnected from server")`. -/
def fail_pending (futures : List (List Char × Fut)) (ids : List (List Char)) :
    List (List Char × Fut) :=
  futures.map (fun p =>
    match p.2 with
    | Fut.pending => if p.1 ∈ ids then (p.1, Fut.failed (("Disconnected from server").toList)) else p
    | _ => p)

/-- `disconnect` (lines 130-166): a no-op when not connected; otherwise the
socket is closed, the state flips, and all pending slots are rejected and
cleared. -/
def client_disconnect (st : TcpClientState) : TcpClientState :=
  if !st.connected then st
  else
    { connected := false
      futures := fail_pending st.futures st.pending_ids
      pending_ids := [] }

inductive LoopStep where
  | keepGoing
  | stopLoop

/-- One iteration of the `_receive_messages` loop body (lines 541-576), as a
function of the `_receive_frame` outcome (text as `List Char`; `none` is a
closed connection).  Returns the new state, the loop disposition and the
reply frame the loop sends, if any.  When the frame is `none` the loop
`break`s and the coroutine simply returns: no pending slot is touched and
`connected` stays `true`. -/
def receive_messages_step (st : TcpClientState) (frame : Option (List Char)) :
    TcpClientState × LoopStep × Option (List Char) :=
  match frame with
  | none => (st, LoopStep.stopLoop, none)
  | some msg =>
    if msg = ("PONG").toList then (st, LoopStep.keepGoing, none)
    else if msg = ("PING").toList then (st, LoopStep.keepGoing, some (("PONG").toList))
    else
      match jsonLoads msg with
      | none => (st, LoopStep.keepGoing, none)
      | some data =>
        match data with
        | JVal.obj fs =>
          match jlookup fs key_id with
          | some (JVal.str rid) =>
            if rid ∈ st.pending_ids then
              ({ st with
                 pending_ids := st.pending_ids.filter (fun i => i ≠ rid)
                 futures := st.futures.map (fun p =>
                   match p.2 with
                   | Fut.pending => if p.1 = rid then (p.1, Fut.resolved data) else p
                   | _ => p) },
               LoopStep.keepGoing, none)
            else (st, LoopStep.keepGoing, none)
          | _ => (st, LoopStep.keepGoing, none)
        | _ => (st, LoopStep.keepGoing, none)

/-! ### Connection supervisor (`src/server/connection_manager.py`,
`UnityConnectionManager`)

The manager runs on one asyncio loop; `reconnect` (lines 206-254) has no
suspension point between its entry checks and setting `is_reconnecting`, so a
caller's behaviour is a function of the state it observes on entry. -/

inductive ReconnectPath where
  | alreadyConnected
  | attachToTask
  | bailOut
  | runAttemptLoop
deriving DecidableEq, Repr

/-- Entry dispatch of `reconnect` (lines 213-227): connected callers return
`True`; while `is_reconnecting` is set, the caller awaits
`self.reconnect_task` only when that task object exists and is not done,
and otherwise returns `False` at once; only otherwise does the attempt loop
start. -/
def reconnect_entry (connected is_reconnecting task_present task_done : Bool) :
    ReconnectPath :=
  if connected then ReconnectPath.alreadyConnected
  else if is_reconnecting then
    if task_present && !task_done then ReconnectPath.attachToTask
    else ReconnectPath.bailOut
  else ReconnectPath.runAttemptLoop

/-- The boolean a `reconnect` caller observes when it enters while another
reconnect is in flight (lines 217-225): the in-flight outcome when it can
attach to a live task (an exception from the awaited task yields `False`,
covered by `inflight_outcome = false`), else `False` immediately. -/
def concurrent_reconnect_outcome (task_present task_done inflight_outcome : Bool) :
    Bool :=
  match reconnect_entry false true task_present task_done with
  | ReconnectPath.attachToTask => inflight_outcome
  | _ => false

/-- The attempt loop of `reconnect` (lines 232-249) over the attempt numbers
still to run: a successful `client.connect()` returns at once; after a
failed attempt that is not the last, the loop sleeps
`reconnect_delay * 2 ^ (attempt - 1)` seconds.  Returns the outcome and the
recorded sleep durations.  `reconnect_delay` is the float `2.0` by default;
all delays used here are exact in floating point, so `Nat` seconds suffice. -/
def run_attempts (reconnect_delay max_attempts : Nat) (connect_ok : Nat → Bool) :
    List Nat → Bool × List Nat
  | [] => (false, [])
  | a :: rest =>
    if connect_ok a then (true, [])
    else if a < max_attempts then
      let r := run_attempts reconnect_delay max_attempts connect_ok rest
      (r.1, reconnect_delay * 2 ^ (a - 1) :: r.2)
    else (false, [])

/-- The whole attempt sequence, attempts numbered `1..max_attempts`. -/
def reconnect_attempt_loop (reconnect_delay max_attempts : Nat)
    (connect_ok : Nat → Bool) : Bool × List Nat :=
  run_attempts reconnect_delay max_attempts connect_ok
    (List.range' 1 max_attempts)

/-! ### `execute_with_reconnect` (lines 171-204)

`recs i` is the outcome of the `i`-th `reconnect()` call the method makes,
`ops i` the outcome of the `i`-th invocation of `operation`. -/

inductive OpResult (α : Type) where
  | ok (v : α)
  | err (msg : List Char)
deriving DecidableEq, Repr

/-- What one `execute_with_reconnect` call did: its result (`err` is a
raised exception, carrying `str(e)`), how many `reconnect()` calls it made,
and how many times it invoked `operation`. -/
structure EwrOutcome (α : Type) where
  result : OpResult α
  reconnect_calls : Nat
  operation_calls : Nat
deriving DecidableEq, Repr

/-- Python `needle in hay` on strings: contiguous-substring test. -/
def contains_sub (needle : List Char) : List Char → Bool
  | [] => needle.isEmpty
  | c :: rest => needle.isPrefixOf (c :: rest) || contains_sub needle rest

/-- Line 193: the connectivity-failure test is a substring check of the
exception text. -/
def is_connection_error (msg : List Char) : Bool :=
  contains_sub (("Not connected").toList) msg

/-- The body after the initial connectivity check, `r` reconnect calls
already made (lines 189-204). -/
def ewr_run (r : Nat) (recs : Nat → Bool) (ops : Nat → OpResult α) : EwrOutcome α :=
  match ops 0 with
  | OpResult.ok v => ⟨OpResult.ok v, r, 1⟩
  | OpResult.err m =>
    if is_connection_error m then
      if recs r then ⟨ops 1, r + 1, 2⟩
      else ⟨OpResult.err (("Operation failed and reconnection failed: ").toList ++ m),
            r + 1, 1⟩
    else ⟨OpResult.err m, r, 1⟩

/-- `execute_with_reconnect` (lines 171-204): reconnect first when not
connected (failing fast when that fails), run the operation, and on an error
whose text contains `"Not connected"` do exactly one more `reconnect()` and,
on success, exactly one retry; any other error propagates unchanged. -/
def execute_with_reconnect (connected : Bool) (recs : Nat → Bool)
    (ops : Nat → OpResult α) : EwrOutcome α :=
  if connected then ewr_run 0 recs ops
  else if recs 0 then ewr_run 1 recs ops
  else ⟨OpResult.err (("Not connected to Unity and reconnection failed").toList), 1, 0⟩

/-! ### Capability registrar (`src/server/dynamic_tools.py`) -/

def key_tools : List Char := ("tools").toList
def key_resources : List Char := ("resources").toList
def key_result : List Char := ("result").toList
def key_content : List Char := ("content").toList
def key_type : List Char := ("type").toList
def key_text : List Char := ("text").toList
def key_name : List Char := ("name").toList
def key_uri : List Char := ("uri").toList
def key_inputSchema : List Char := ("inputSchema").toList
def key_properties : List Char := ("properties").toList

/-- The `content`-array scan shared by cases 2.2 and 3 of `_process_schema`
(lines 117-127 and 133-143): the first `text`-typed item whose text parses
as a JSON dict containing `tools` wins.  `Except.error` is an uncaught
Python exception: a non-dict item (`item.get` raises) or a non-string
`text` value (`json.loads` raises `TypeError`, which the
`except JSONDecodeError` does not catch). -/
def scan_content_items : List JVal → Except Unit (Option JVal)
  | [] => Except.ok none
  | item :: rest =>
    match item with
    | JVal.obj fs =>
      if jlookup fs key_type == some (JVal.str (("text").toList)) then
        match (jlookup fs key_text).getD (JVal.str []) with
        | JVal.str t =>
          match jsonLoads t with
          | some (JVal.obj pfs) =>
            if hasKey pfs key_tools then Except.ok (some (JVal.obj pfs))
            else scan_content_items rest
          | some _ => scan_content_items rest
          | none => scan_content_items rest
        | _ => Except.error ()
      else scan_content_items rest
    | _ => Except.error ()

/-- Iterating `for item in content`: a list yields its items; an empty
string or dict yields nothing; a non-empty string or dict yields items on
which `item.get` raises; anything else raises `TypeError` at the `for`. -/
def scan_content (content : JVal) : Except Unit (Option JVal) :=
  match content with
  | JVal.arr items => scan_content_items items
  | JVal.str s => if s.isEmpty then Except.ok none else Except.error ()
  | JVal.obj fs => if fs.isEmpty then Except.ok none else Except.error ()
  | _ => Except.error ()

/-- `_process_schema` on a dict (lines 97-146).  Case 1 fires when the dict
has a `tools` key **or** a `resources` key; case 2.1 needs the `result`
dict to have both; cases 2.2 and 3 scan `content`.  Falling all the way
through returns the empty dict. -/
def process_dict (fs : List (List Char × JVal)) : Except Unit JVal :=
  if hasKey fs key_tools || hasKey fs key_resources then Except.ok (JVal.obj fs)
  else
    let step2 : Except Unit (Option JVal) :=
      if hasKey fs key_result then
        match (jlookup fs key_result).getD (JVal.obj []) with
        | JVal.obj rfs =>
          if hasKey rfs key_tools && hasKey rfs key_resources then
            Except.ok (some (JVal.obj rfs))
          else if hasKey rfs key_content then
            scan_content ((jlookup rfs key_content).getD (JVal.arr []))
          else Except.ok none
        | _ => Except.ok none
      else Except.ok none
    match step2 with
    | Except.error e => Except.error e
    | Except.ok (some v) => Except.ok v
    | Except.ok none =>
      let step3 : Except Unit (Option JVal) :=
        if hasKey fs key_content then
          scan_content ((jlookup fs key_content).getD (JVal.arr []))
        else Except.ok none
      match step3 with
      | Except.error e => Except.error e
      | Except.ok (some v) => Except.ok v
      | Except.ok none => Except.ok (JVal.obj [])

/-- Line 97 / line 145: a non-dict (after any string parse) yields `{}`. -/
def process_parsed (v : JVal) : Except Unit JVal :=
  match v with
  | JVal.obj fs => process_dict fs
  | _ => Except.ok (JVal.obj [])

/-- `_process_schema` (lines 84-146): a string result is `json.loads`-parsed
first (a parse failure returns `{}`). -/
def process_schema (schema_result : JVal) : Except Unit JVal :=
  match schema_result with
  | JVal.str s =>
    match jsonLoads s with
    | none => Except.ok (JVal.obj [])
    | some v => process_parsed v
  | v => process_parsed v

/-- The registrar's two name-keyed registries (insertion order).  Keys are
whatever value the schema supplied as `name`. -/
structure Registries where
  tools : List JVal
  resources : List JVal

/-- `_register_tool` (lines 226-309) for one item of the `tools` iteration;
any exception it raises is caught by the per-tool `except` (line 64) and
skips the item.  A non-dict item raises at `tool.get`; a falsy or known
name returns early; a non-dict `inputSchema` or `properties` raises inside
`func_metadata`/`Tool(...)` before the tool is recorded (deeper
pydantic-level failures are not modelled — no claim exercises them). -/
def register_tool_step (regs : Registries) (tool : JVal) : Registries :=
  match tool with
  | JVal.obj fs =>
    match jlookup fs key_name with
    | some name =>
      if pyTruthy name then
        if regs.tools.contains name then regs
        else
          match (jlookup fs key_inputSchema).getD (JVal.obj []) with
          | JVal.obj ifs =>
            match (jlookup ifs key_properties).getD (JVal.obj []) with
            | JVal.obj _ => { regs with tools := regs.tools ++ [name] }
            | _ => regs
          | _ => regs
      else regs
    | none => regs
  | _ => regs

/-- `_register_resource` (lines 311-424) for one item of the `resources`
iteration.  The registry entry is written at line 362, before the
`FunctionResource` construction whose failure is caught locally, so a
resource is recorded iff its name is truthy and new and its `uri` is a
truthy string (a non-string truthy `uri` raises at `uri.split` first). -/
def register_resource_step (regs : Registries) (res : JVal) : Registries :=
  match res with
  | JVal.obj fs =>
    match jlookup fs key_name with
    | some name =>
      if pyTruthy name then
        if regs.resources.contains name then regs
        else
          match jlookup fs key_uri with
          | some (JVal.str u) =>
            if !u.isEmpty then { regs with resources := regs.resources ++ [name] }
            else regs
          | _ => regs
      else regs
    | none => regs
  | _ => regs

/-- `for x in v` over the `tools` / `resources` value: a list yields its
items, a string its characters (as 1-char strings), a dict its keys; other
values raise `TypeError`, which escapes to the blanket `except` of
`register_from_schema`. -/
def iter_items (v : JVal) : Except Unit (List JVal) :=
  match v with
  | JVal.arr xs => Except.ok xs
  | JVal.str s => Except.ok (s.map (fun c => JVal.str [c]))
  | JVal.obj fs => Except.ok (fs.map (fun p => JVal.str p.1))
  | _ => Except.error ()

/-- `register_from_schema` (lines 30-82): process the schema result, require
a truthy dict holding both `tools` and `resources`, register each declared
tool then each declared resource, and return `True`; any escaped exception
is caught and yields `False`.  Returns the outcome and the registries. -/
def register_from_schema (schema_result : JVal) (regs : Registries) :
    Bool × Registries :=
  match process_schema schema_result with
  | Except.error _ => (false, regs)
  | Except.ok processed =>
    match processed with
    | JVal.obj [] => (false, regs)
    | JVal.obj fs =>
      if !(hasKey fs key_tools) || !(hasKey fs key_resources) then (false, regs)
      else
        match iter_items ((jlookup fs key_tools).getD (JVal.arr [])) with
        | Except.error _ => (false, regs)
        | Except.ok tools =>
          let regs1 := tools.foldl register_tool_step regs
          match iter_items ((jlookup fs key_resources).getD (JVal.arr [])) with
          | Except.error _ => (false, regs1)
          | Except.ok ress => (true, ress.foldl register_resource_step regs1)
    | _ => (false, regs)

/-! ### Dynamic resource handler (`_register_resource` lines 337-345 and
`dynamic_resource_handler` lines 369-404) -/

/-- Python `str.split('/')`. -/
def splitOnChar (sep : Char) : List Char → List (List Char)
  | [] => [[]]
  | c :: cs =>
    let r := splitOnChar sep cs
    if c = sep then [] :: r
    else
      match r with
      | h :: t => (c :: h) :: t
      | [] => [[c]]

/-- Lines 339-345: the ordered parameter names are the `/`-separated URI
parts that start with the opening brace and end with the closing brace,
with those braces removed (`part[1:-1]`). -/
def extract_uri_params (uri : List Char) : List (List Char) :=
  (splitOnChar '/' uri).filterMap (fun part =>
    if part.head? = some (Char.ofNat 123) && part.getLast? = some (Char.ofNat 125) then
      some ((part.drop 1).dropLast)
    else none)

/-- Python dict assignment `d[k] = v`: replace in place or append. -/
def dict_set (d : List (List Char × α)) (k : List Char) (v : α) :
    List (List Char × α) :=
  if d.any (fun p => p.1 = k) then
    d.map (fun p => if p.1 = k then (k, v) else p)
  else d ++ [(k, v)]

/-- Lines 374-380: positional arguments are bound to the URI parameters in
order (`if i < len(args)`; extras are ignored), then keyword arguments are
merged. -/
def build_param_dict (params : List (List Char)) (args : List α)
    (kwargs : List (List Char × α)) : List (List Char × α) :=
  kwargs.foldl (fun d p => dict_set d p.1 p.2)
    ((params.zip args).foldl (fun d p => dict_set d p.1 p.2) [])

/-- `dynamic_resource_handler` (lines 369-404): build the parameter dict,
raise a local `TypeError` (the Argument-Count error, `Except.error`) when
fewer values than URI parameters were collected, and otherwise send
`access_resource` with the resource name and the parameter dict — the only
peer contact. -/
def dynamic_resource_handler (resource_name : List Char)
    (params : List (List Char)) (args : List α)
    (kwargs : List (List Char × α)) :
    Except Unit (List Char × List Char × List (List Char × α)) :=
  let d := build_param_dict params args kwargs
  if params.length > 0 && d.length < params.length then Except.error ()
  else Except.ok ((("access_resource").toList), resource_name, d)

/-! ### Schema wrapper shapes (spec §4.4) and concrete demo values -/

/-- The `result`-wrapped schema shape. -/
def result_wrap (v : JVal) : JVal := JVal.obj [(key_result, v)]

/-- A `text`-typed content item carrying JSON source. -/
def content_item (text : List Char) : JVal :=
  JVal.obj [(key_type, JVal.str (("text").toList)), (key_text, JVal.str text)]

/-- The `content`-wrapped shape: a `content` array holding one `text` item
whose text is the JSON source of the schema. -/
def content_wrap (text : List Char) : JVal :=
  JVal.obj [(key_content, JVal.arr [content_item text])]

def demo_tool : JVal := JVal.obj [(key_name, JVal.str (("execute_code").toList))]

def demo_resource : JVal :=
  JVal.obj [(key_name, JVal.str (("info").toList)),
            (key_uri, JVal.str (("ns://info").toList))]

def demo_inner : JVal :=
  JVal.obj [(key_tools, JVal.arr [demo_tool]),
            (key_resources, JVal.arr [demo_resource])]

/-- A schema whose top level has a `tools` key (but no `resources`) while its
`result` field holds both arrays. -/
def demo_schema_tools_and_result : JVal :=
  JVal.obj [(key_tools, JVal.arr [demo_tool]), (key_result, demo_inner)]

/-- JSON source of a minimal schema carrying both arrays. -/
def demo_schema_text : List Char :=
  ("\x7b\"tools\":[],\"resources\":[]\x7d").toList

/-- The fields `jsonLoads demo_schema_text` produces. -/
def demo_schema_fields : List (List Char × JVal) :=
  [(key_tools, JVal.arr []), (key_resources, JVal.arr [])]

/-- A client state with one in-flight `send_command` awaiting `req_1`. -/
def demo_pending_state : TcpClientState :=
  { connected := true
    futures := [(("req_1").toList, Fut.pending)]
    pending_ids := [("req_1").toList] }

/-! ## Theorems -/

/-- `struct.pack("<I", n)` followed by `struct.unpack("<I", ·)` is the
identity below `2^32`. -/
theorem le4_reconstruct (n : Nat) (h : n < 4294967296) :
    n % 256 + 256 * (n / 256 % 256) + 65536 * (n / 65536 % 256) +
      16777216 * (n / 16777216 % 256) = n := by
  omega

/-- The start-marker scan finds an immediate STX. -/
theorem scan_start_marker (X : List Nat) :
    scan_start 1000 (START_MARKER :: X) = some X := by
  simp [scan_start]

/-- Shared shape lemma: `_receive_frame` on one well-formed frame around a
payload of legal length reduces to the end-marker check. -/
theorem receive_frame_framed (p : List Nat) (e : Nat)
    (h1 : 1 ≤ p.length) (h2 : p.length ≤ MAX_FRAME_BYTES) :
    receive_frame (START_MARKER :: le4 p.length ++ p ++ [e]) =
      if e = END_MARKER then
        (match utf8Decode p with
         | some _ => some p
         | none => none)
      else if e = 125 then (if json_recover_ok p then some p else none)
      else none := by
  have h32 : p.length < 4294967296 := by
    have : MAX_FRAME_BYTES < 4294967296 := by decide
    omega
  have hv := le4_reconstruct p.length h32
  have hX : (le4 p.length ++ p) ++ [e] =
      p.length % 256 :: (p.length / 256 % 256) :: (p.length / 65536 % 256) ::
        (p.length / 16777216 % 256) :: (p ++ [e]) := by
    simp [le4]
  rw [receive_frame]
  rw [show START_MARKER :: le4 p.length ++ p ++ [e] =
      START_MARKER :: ((le4 p.length ++ p) ++ [e]) from rfl]
  rw [hX, scan_start_marker]
  simp only [hv]
  have hc : (decide (p.length = 0) || decide (p.length > MAX_FRAME_BYTES)) = false := by
    simp only [Bool.or_eq_false_iff, decide_eq_false_iff_not]
    constructor <;> omega
  rw [hc]
  rw [if_neg (by simp : ¬(false = true))]
  rw [if_neg (by simp : ¬((p ++ [e]).length < p.length))]
  rw [List.drop_left, List.take_left]

/-- C1: encoding a payload of 1 byte to 10 MiB as a frame and decoding that
frame returns the payload unchanged, and `_receive_frame` rejects any frame
whose declared length is 0 or above 10 MiB. -/
theorem framing_roundtrip_and_length_check :
    (∀ (p cps : List Nat), utf8Decode p = some cps →
      1 ≤ p.length → p.length ≤ MAX_FRAME_BYTES →
      receive_frame (send_frame p) = some p) ∧
    (∀ (b0 b1 b2 b3 : Nat) (rest : List Nat),
      (b0 + 256 * b1 + 65536 * b2 + 16777216 * b3 = 0 ∨
       b0 + 256 * b1 + 65536 * b2 + 16777216 * b3 > MAX_FRAME_BYTES) →
      receive_frame (START_MARKER :: b0 :: b1 :: b2 :: b3 :: rest) = none) := by
  constructor
  · intro p cps hdec h1 h2
    have h := receive_frame_framed p END_MARKER h1 h2
    rw [send_frame, h, if_pos rfl, hdec]
  · intro b0 b1 b2 b3 rest hbad
    have hcond : (decide (b0 + 256 * b1 + 65536 * b2 + 16777216 * b3 = 0) ||
        decide (b0 + 256 * b1 + 65536 * b2 + 16777216 * b3 > MAX_FRAME_BYTES)) = true := by
      rcases hbad with h | h <;> simp [h]
    simp only [receive_frame, scan_start_marker]
    rw [hcond]
    simp

/-- Witness for C1 at a concrete one-byte payload and a zero-length header. -/
theorem framing_roundtrip_and_length_check_witness :
    (utf8Decode [65] = some [65] ∧ 1 ≤ ([65] : List Nat).length ∧
      ([65] : List Nat).length ≤ MAX_FRAME_BYTES ∧
      receive_frame (send_frame [65]) = some [65]) ∧
    ((0 + 256 * 0 + 65536 * 0 + 16777216 * 0 = 0) ∧
      receive_frame (START_MARKER :: 0 :: 0 :: 0 :: 0 :: [9]) = none) :=
  ⟨⟨rfl, by decide, by decide,
    framing_roundtrip_and_length_check.1 [65] [65] rfl (by decide) (by decide)⟩,
   ⟨by decide,
    framing_roundtrip_and_length_check.2 0 0 0 0 [9] (Or.inl (by decide))⟩⟩

/-- C9 counterexample: a frame whose end-marker byte is `0x7D` (not the ETX
marker `0x03`) around the valid-JSON payload `[0x7B, 0x7D]` is accepted and
returned as a valid payload by `_receive_frame`. -/
theorem end_marker_json_escape_counterexample :
    (125 : Nat) ≠ END_MARKER ∧
    receive_frame [START_MARKER, 2, 0, 0, 0, 123, 125, 125] = some [123, 125] :=
  ⟨by decide, by rfl⟩

/-- C9 amended: a mismatched end marker is rejected unless it is the byte
`0x7D`, in which case the frame is still accepted exactly when the payload
decodes as UTF-8, strips to text ending in the closing brace, and parses as
JSON (`_receive_frame` lines 324-341). -/
theorem end_marker_mismatch_rejected (p : List Nat) (e : Nat)
    (h1 : 1 ≤ p.length) (h2 : p.length ≤ MAX_FRAME_BYTES)
    (hne : e ≠ END_MARKER) :
    (e ≠ 125 → receive_frame (START_MARKER :: le4 p.length ++ p ++ [e]) = none) ∧
    (e = 125 → receive_frame (START_MARKER :: le4 p.length ++ p ++ [e]) =
      (if json_recover_ok p then some p else none)) := by
  have h := receive_frame_framed p e h1 h2
  rw [if_neg hne] at h
  constructor
  · intro h125
    rw [h, if_neg h125]
  · intro h125
    rw [h, if_pos h125]

/-- Witness for C9's amended theorem: end byte `0x04` is rejected, and end
byte `0x7D` around the non-JSON payload `[65]` is rejected too. -/
theorem end_marker_mismatch_rejected_witness :
    (1 ≤ ([65] : List Nat).length ∧ ([65] : List Nat).length ≤ MAX_FRAME_BYTES ∧
      (4 : Nat) ≠ END_MARKER ∧
      receive_frame (START_MARKER :: le4 ([65] : List Nat).length ++ [65] ++ [4]) = none) ∧
    ((125 : Nat) ≠ END_MARKER ∧
      receive_frame (START_MARKER :: le4 ([65] : List Nat).length ++ [65] ++ [125]) =
        (if json_recover_ok [65] then some [65] else none)) :=
  ⟨⟨by decide, by decide, by decide,
    (end_marker_mismatch_rejected [65] 4 (by decide) (by decide) (by decide)).1 (by decide)⟩,
   ⟨by decide,
    (end_marker_mismatch_rejected [65] 125 (by decide) (by decide) (by decide)).2 rfl⟩⟩

/-- C2 counterexample: the handshake also succeeds on response bytes that
are **not** exactly the `HANDSHAKE_RESPONSE` token — `_perform_handshake`
strips the decoded text (line 194) before comparing, so a trailing newline
is accepted. -/
theorem handshake_strip_counterexample :
    perform_handshake (some (strCodes HANDSHAKE_RESPONSE ++ [10])) = true ∧
    strCodes HANDSHAKE_RESPONSE ++ [10] ≠ strCodes HANDSHAKE_RESPONSE :=
  ⟨by rfl, by decide⟩

/-- C2 amended: during connect the client writes exactly the UTF-8 (ASCII)
bytes of `HANDSHAKE_REQUEST` (`"YAUM_HANDSHAKE_REQUEST"`, no terminator);
a read timeout or socket error fails the handshake; and with response bytes
that decode as UTF-8, the handshake succeeds iff the decoded text **stripped
of surrounding whitespace** equals `HANDSHAKE_RESPONSE`
(`"YAUM_HANDSHAKE_RESPONSE"`); undecodable bytes fail. -/
theorem handshake_exchange (bs cps : List Nat)
    (hdec : utf8Decode bs = some cps) :
    handshake_request_bytes =
      [89, 65, 85, 77, 95, 72, 65, 78, 68, 83, 72, 65, 75, 69, 95,
       82, 69, 81, 85, 69, 83, 84] ∧
    perform_handshake none = false ∧
    (perform_handshake (some bs) = true ↔
      pyStrip cps = strCodes HANDSHAKE_RESPONSE) ∧
    (∀ bs2, utf8Decode bs2 = none → perform_handshake (some bs2) = false) := by
  refine ⟨by rfl, by rfl, ?_, ?_⟩
  · rw [perform_handshake, hdec]
    exact beq_iff_eq
  · intro bs2 h2
    rw [perform_handshake, h2]

/-- Witness for C2's amended theorem at the exact response token. -/
theorem handshake_exchange_witness :
    utf8Decode (strCodes HANDSHAKE_RESPONSE) = some (strCodes HANDSHAKE_RESPONSE) ∧
    (perform_handshake (some (strCodes HANDSHAKE_RESPONSE)) = true ↔
      pyStrip (strCodes HANDSHAKE_RESPONSE) = strCodes HANDSHAKE_RESPONSE) :=
  ⟨by rfl,
   (handshake_exchange (strCodes HANDSHAKE_RESPONSE) (strCodes HANDSHAKE_RESPONSE)
      (by rfl)).2.2.1⟩

/-- C10: the Request Envelope built by `send_command` has exactly the keys
`id`, `command`, `client_timestamp`, plus `parameters` iff the argument is a
non-empty mapping; an empty dict builds the very same envelope as `None`. -/
theorem request_envelope_keys (request_id command : List Char) (ts : Int)
    (ps : Option (List (List Char × JVal))) :
    (build_request request_id command ts ps).map Prod.fst =
      [key_id, key_command, key_client_timestamp] ++
        (if (ps.getD []).isEmpty then [] else [key_parameters]) ∧
    build_request request_id command ts (some []) =
      build_request request_id command ts none := by
  constructor
  · cases ps with
    | none => simp [build_request]
    | some l => cases l <;> simp [build_request]
  · rfl

/-- C7 counterexample: when the peer closes the stream, `_receive_messages`
just `break`s out of its loop (lines 544-546) and returns — the client state
is untouched, so a pending correlation slot stays pending instead of being
force-resolved with a "disconnected" condition. -/
theorem peer_close_leaves_pending_counterexample :
    receive_messages_step demo_pending_state none =
      (demo_pending_state, LoopStep.stopLoop, none) ∧
    demo_pending_state.connected = true ∧
    demo_pending_state.futures = [(("req_1").toList, Fut.pending)] ∧
    demo_pending_state.pending_ids = [("req_1").toList] :=
  ⟨rfl, rfl, rfl, rfl⟩

/-- C7 amended: an explicit `disconnect()` call on a connected client
force-resolves every still-pending correlation slot with the
`"Disconnected from server"` condition and clears the pending map; the
peer-closing-the-stream path does not do this (see the counterexample). -/
theorem disconnect_rejects_pending (st : TcpClientState)
    (hconn : st.connected = true) :
    (client_disconnect st).connected = false ∧
    (client_disconnect st).pending_ids = [] ∧
    (∀ rid, rid ∈ st.pending_ids → (rid, Fut.pending) ∈ st.futures →
      (rid, Fut.failed (("Disconnected from server").toList)) ∈
        (client_disconnect st).futures) := by
  rw [client_disconnect, hconn]
  refine ⟨rfl, rfl, ?_⟩
  intro rid hid hfut
  simp only [Bool.not_true, Bool.false_eq_true, if_false]
  exact List.mem_map.mpr ⟨(rid, Fut.pending), hfut, by simp [hid]⟩

/-- Witness for C7's amended theorem on a state with one pending slot. -/
theorem disconnect_rejects_pending_witness :
    demo_pending_state.connected = true ∧
    (client_disconnect demo_pending_state).pending_ids = [] ∧
    (("req_1").toList, Fut.failed (("Disconnected from server").toList)) ∈
      (client_disconnect demo_pending_state).futures :=
  ⟨rfl, (disconnect_rejects_pending demo_pending_state rfl).2.1,
   (disconnect_rejects_pending demo_pending_state rfl).2.2 (("req_1").toList)
     (List.mem_singleton.mpr rfl) (List.mem_singleton.mpr rfl)⟩

/-- C4 counterexample: a `reconnect()` caller that enters while a reconnect
started by a **direct** call is in flight (`is_reconnecting` set but no
`reconnect_task` object recorded) returns `False` immediately instead of
attaching to the in-flight attempt — so when the in-flight attempt succeeds
(`True`), the two callers observe different outcomes. -/
theorem reconnect_coalescing_counterexample :
    reconnect_entry false true false false = ReconnectPath.bailOut ∧
    concurrent_reconnect_outcome false false true = false ∧
    (false : Bool) ≠ true :=
  ⟨rfl, rfl, by decide⟩

/-- C4 amended: a caller that enters `reconnect` while another reconnect is
in progress never starts a second attempt sequence; it attaches to and
observes the in-flight outcome exactly when a not-yet-done `reconnect_task`
object exists (the auto-reconnect path), and otherwise returns `False`
immediately, regardless of the in-flight outcome. -/
theorem reconnect_coalescing_amended (task_present task_done inflight : Bool) :
    reconnect_entry false true task_present task_done ≠ ReconnectPath.runAttemptLoop ∧
    (task_present = true → task_done = false →
      concurrent_reconnect_outcome task_present task_done inflight = inflight) ∧
    ((task_present = false ∨ task_done = true) →
      concurrent_reconnect_outcome task_present task_done inflight = false) := by
  cases task_present <;> cases task_done <;> cases inflight <;>
    simp [reconnect_entry, concurrent_reconnect_outcome]

/-- Witness for C4's amended theorem: with a live task the caller observes
the in-flight `true`; with no task it observes `false`. -/
theorem reconnect_coalescing_amended_witness :
    reconnect_entry false true true false ≠ ReconnectPath.runAttemptLoop ∧
    concurrent_reconnect_outcome true false true = true ∧
    concurrent_reconnect_outcome false false true = false :=
  ⟨(reconnect_coalescing_amended true false true).1,
   (reconnect_coalescing_amended true false true).2.1 rfl rfl,
   (reconnect_coalescing_amended false false true).2.2 (Or.inl rfl)⟩

/-- C5: when the operation run by `execute_with_reconnect` fails with an
error recognized as a connectivity failure (its text contains the code's
`"Not connected"` indicator), exactly one additional `reconnect()` happens
and, when it succeeds, the operation is retried exactly once (its second
outcome becomes the result); on any other error the original error
propagates unchanged, with no further reconnect and no retry.
(`base` counts the initial reconnect made only when entering disconnected;
the hypothesis rules out the fail-fast path where the operation never
runs.) -/
theorem execute_with_reconnect_retry_policy {α : Type} (connected : Bool)
    (recs : Nat → Bool) (ops : Nat → OpResult α) (m : List Char)
    (hrun : connected = true ∨ recs 0 = true)
    (hop : ops 0 = OpResult.err m) :
    (is_connection_error m = true →
      execute_with_reconnect connected recs ops =
        (if recs (if connected then 0 else 1) then
          ⟨ops 1, (if connected then 0 else 1) + 1, 2⟩
        else
          ⟨OpResult.err ((("Operation failed and reconnection failed: ").toList) ++ m),
           (if connected then 0 else 1) + 1, 1⟩)) ∧
    (is_connection_error m = false →
      execute_with_reconnect connected recs ops =
        ⟨OpResult.err m, (if connected then 0 else 1), 1⟩) := by
  cases connected with
  | true =>
    constructor <;> intro hcls <;>
      simp [execute_with_reconnect, ewr_run, hop, hcls]
  | false =>
    have hrec0 : recs 0 = true := by
      rcases hrun with h | h
      · exact absurd h (by simp)
      · exact h
    constructor <;> intro hcls <;>
      simp [execute_with_reconnect, ewr_run, hop, hcls, hrec0]

/-- Witness for C5 on a connected client: a connectivity failure followed by
a successful reconnect and retry, and an unrelated error that propagates. -/
theorem execute_with_reconnect_retry_policy_witness :
    (is_connection_error (("Not connected to Unity TCP server").toList) = true ∧
      execute_with_reconnect true (fun _ => true)
        (fun i => if i = 0 then
            OpResult.err (("Not connected to Unity TCP server").toList)
          else OpResult.ok 7) =
        ⟨OpResult.ok 7, 1, 2⟩) ∧
    (is_connection_error (("boom").toList) = false ∧
      execute_with_reconnect true (fun _ => true)
        (fun i => if i = 0 then OpResult.err (("boom").toList)
          else OpResult.ok (7 : Nat)) =
        ⟨OpResult.err (("boom").toList), 0, 1⟩) :=
  ⟨⟨by rfl,
    by
      have h := (execute_with_reconnect_retry_policy true (fun _ => true)
        (fun i => if i = 0 then
            OpResult.err (("Not connected to Unity TCP server").toList)
          else OpResult.ok 7)
        (("Not connected to Unity TCP server").toList) (Or.inl rfl) rfl).1 rfl
      simpa using h⟩,
   ⟨by rfl,
    by
      have h := (execute_with_reconnect_retry_policy true (fun _ => true)
        (fun i => if i = 0 then OpResult.err (("boom").toList)
          else OpResult.ok (7 : Nat))
        (("boom").toList) (Or.inl rfl) rfl).2 rfl
      simpa using h⟩⟩

/-- C8: with `reconnect_delay = 2` seconds and 5 attempts that all fail, the
loop sleeps exactly between consecutive attempts, for 2, 4, 8 and 16 seconds
(4 gaps, none after the final attempt, each `reconnect_delay * 2^(attempt-1)`),
and the loop stops early at the first successful attempt (recording only the
gaps before it). -/
theorem reconnect_backoff_schedule :
    reconnect_attempt_loop 2 5 (fun _ => false) = (false, [2, 4, 8, 16]) ∧
    (∀ (connect_ok : Nat → Bool) (k : Nat), 1 ≤ k → k ≤ 5 →
      (∀ i, i < k → connect_ok i = false) → connect_ok k = true →
      reconnect_attempt_loop 2 5 connect_ok =
        (true, List.take (k - 1) [2, 4, 8, 16])) := by
  constructor
  · rfl
  · intro ok k h1 h5 hlt hk
    interval_cases k
    · simp [reconnect_attempt_loop, run_attempts, hk, List.range']
    · have e1 := hlt 1 (by omega)
      simp [reconnect_attempt_loop, run_attempts, e1, hk, List.range']
    · have e1 := hlt 1 (by omega)
      have e2 := hlt 2 (by omega)
      simp [reconnect_attempt_loop, run_attempts, e1, e2, hk, List.range']
    · have e1 := hlt 1 (by omega)
      have e2 := hlt 2 (by omega)
      have e3 := hlt 3 (by omega)
      simp [reconnect_attempt_loop, run_attempts, e1, e2, e3, hk, List.range']
    · have e1 := hlt 1 (by omega)
      have e2 := hlt 2 (by omega)
      have e3 := hlt 3 (by omega)
      have e4 := hlt 4 (by omega)
      simp [reconnect_attempt_loop, run_attempts, e1, e2, e3, e4, hk, List.range']

/-- Witness for C8: success at attempt 3 records only the gaps 2 and 4. -/
theorem reconnect_backoff_schedule_witness :
    reconnect_attempt_loop 2 5 (fun _ => false) = (false, [2, 4, 8, 16]) ∧
    reconnect_attempt_loop 2 5 (fun i => decide (i = 3)) =
      (true, List.take 2 [2, 4, 8, 16]) :=
  ⟨reconnect_backoff_schedule.1,
   reconnect_backoff_schedule.2 (fun i => decide (i = 3)) 3 (by decide) (by decide)
     (fun i hi => by simp; omega) (by decide)⟩

/-- C6 counterexample: the callable registered for `ns://a/{x}/{y}` does
**not** fail on 3 positional arguments — the extra argument is silently
ignored (`dynamic_resource_handler` binds only `i < len(parameters)`), and
the `access_resource` command is still sent. -/
theorem resource_arity_extra_arg_counterexample :
    extract_uri_params (("ns://a/\x7bx\x7d/\x7by\x7d").toList) =
      [("x").toList, ("y").toList] ∧
    dynamic_resource_handler (("a").toList) [("x").toList, ("y").toList]
        [10, 20, 30] [] =
      Except.ok ((("access_resource").toList), ("a").toList,
        [(("x").toList, 10), (("y").toList, 20)]) :=
  ⟨rfl, rfl⟩

/-- C6 amended: registering `ns://a/{x}/{y}` extracts the parameters
`x`, `y`; invoking the handler with fewer positional arguments than URI
parameters raises the local Argument-Count error without contacting the
peer, and invoking it with 2 **or more** proceeds to send `access_resource`
(extra positional arguments beyond the 2 URI parameters are dropped). -/
theorem resource_arity_amended (args : List Nat) :
    extract_uri_params (("ns://a/\x7bx\x7d/\x7by\x7d").toList) =
      [("x").toList, ("y").toList] ∧
    (args.length < 2 →
      dynamic_resource_handler (("a").toList) [("x").toList, ("y").toList]
        args [] = Except.error ()) ∧
    (∀ (a b : Nat) (rest : List Nat),
      dynamic_resource_handler (("a").toList) [("x").toList, ("y").toList]
        (a :: b :: rest) [] =
      Except.ok ((("access_resource").toList), ("a").toList,
        [(("x").toList, a), (("y").toList, b)])) := by
  refine ⟨rfl, ?_, ?_⟩
  · intro hlen
    match args, hlen with
    | [], _ => rfl
    | [a], _ =>
      simp [dynamic_resource_handler, build_param_dict, dict_set]
  · intro a b rest
    simp [dynamic_resource_handler, build_param_dict, dict_set]

/-- Witness for C6's amended theorem at 1 and 2 arguments. -/
theorem resource_arity_amended_witness :
    (([10] : List Nat).length < 2 ∧
      dynamic_resource_handler (("a").toList) [("x").toList, ("y").toList]
        [10] [] = Except.error ()) ∧
    dynamic_resource_handler (("a").toList) [("x").toList, ("y").toList]
      [10, 20] [] =
      Except.ok ((("access_resource").toList), ("a").toList,
        [(("x").toList, 10), (("y").toList, 20)]) :=
  ⟨⟨by decide, (resource_arity_amended [10]).2.1 (by decide)⟩,
   (resource_arity_amended [10, 20]).2.2 10 20 []⟩

/-- C3 counterexample: on a schema whose top level has only a `tools` key
while its `result` field holds **both** arrays, `_process_schema` stops at
the top level (case 1 fires on `tools` *or* `resources`), so
`register_from_schema` returns `false` and registers nothing — although the
`result` wrapper is present and would have yielded both arrays (registering
from it succeeds with non-empty registries).  The first structure yielding
*both* arrays is therefore not the one used. -/
theorem schema_first_both_counterexample :
    process_schema demo_schema_tools_and_result =
      Except.ok demo_schema_tools_and_result ∧
    register_from_schema demo_schema_tools_and_result ⟨[], []⟩ =
      (false, ⟨[], []⟩) ∧
    jlookup [(key_tools, JVal.arr [demo_tool]), (key_result, demo_inner)]
      key_result = some demo_inner ∧
    register_from_schema (result_wrap demo_inner) ⟨[], []⟩ =
      (true, ⟨[JVal.str (("execute_code").toList)],
              [JVal.str (("info").toList)]⟩) :=
  ⟨rfl, rfl, rfl, rfl⟩

/-- The `content` scan accepts a single `text` item whose text parses to a
dict with a `tools` key. -/
theorem scan_content_text_item (fs : List (List Char × JVal)) (text : List Char)
    (hparse : jsonLoads text = some (JVal.obj fs))
    (htools : hasKey fs key_tools = true) :
    scan_content (JVal.arr [content_item text]) = Except.ok (some (JVal.obj fs)) := by
  simp only [scan_content, scan_content_items, content_item,
    show (jlookup [(key_type, JVal.str (("text").toList)), (key_text, JVal.str text)]
        key_type == some (JVal.str (("text").toList))) = true from rfl, if_true,
    show (jlookup [(key_type, JVal.str (("text").toList)), (key_text, JVal.str text)]
        key_text).getD (JVal.str []) = JVal.str text from rfl]
  rw [hparse]
  simp only [htools, if_true]

/-- C3 amended: `_process_schema` tries the documented wrapper shapes in
order, but its direct case fires on a `tools` key **or** a `resources` key
(see the counterexample); all four documented shapes around the same
declarations normalize to the same schema dict, so they register identical
tool and resource sets; and whenever no shape matches (the processed schema
is the empty dict) or processing raises, `register_from_schema` returns
`false` without raising. -/
theorem schema_shape_tolerance (fs : List (List Char × JVal)) (text : List Char)
    (hparse : jsonLoads text = some (JVal.obj fs))
    (htools : hasKey fs key_tools = true)
    (hres : hasKey fs key_resources = true) :
    process_schema (JVal.obj fs) = Except.ok (JVal.obj fs) ∧
    process_schema (result_wrap (JVal.obj fs)) = Except.ok (JVal.obj fs) ∧
    process_schema (content_wrap text) = Except.ok (JVal.obj fs) ∧
    process_schema (result_wrap (content_wrap text)) = Except.ok (JVal.obj fs) ∧
    (∀ regs : Registries,
      register_from_schema (result_wrap (JVal.obj fs)) regs =
        register_from_schema (JVal.obj fs) regs ∧
      register_from_schema (content_wrap text) regs =
        register_from_schema (JVal.obj fs) regs ∧
      register_from_schema (result_wrap (content_wrap text)) regs =
        register_from_schema (JVal.obj fs) regs) ∧
    (∀ (v : JVal) (regs : Registries), process_schema v = Except.ok (JVal.obj []) →
      register_from_schema v regs = (false, regs)) ∧
    (∀ (v : JVal) (regs : Registries), process_schema v = Except.error () →
      register_from_schema v regs = (false, regs)) := by
  have hsc := scan_content_text_item fs text hparse htools
  have hp1 : process_schema (JVal.obj fs) = Except.ok (JVal.obj fs) := by
    simp [process_schema, process_parsed, process_dict, htools]
  have hp2 : process_schema (result_wrap (JVal.obj fs)) = Except.ok (JVal.obj fs) := by
    have e1 : (hasKey [(key_result, JVal.obj fs)] key_tools ||
        hasKey [(key_result, JVal.obj fs)] key_resources) = false := rfl
    simp only [process_schema, process_parsed, result_wrap, process_dict, e1,
      Bool.false_eq_true, if_false]
    simp only [show hasKey [(key_result, JVal.obj fs)] key_result = true from rfl,
      if_true,
      show jlookup [(key_result, JVal.obj fs)] key_result = some (JVal.obj fs) from rfl,
      Option.getD_some, htools, hres, Bool.and_self, if_pos rfl]
  have hp3 : process_schema (content_wrap text) = Except.ok (JVal.obj fs) := by
    have e1 : (hasKey [(key_content, JVal.arr [content_item text])] key_tools ||
        hasKey [(key_content, JVal.arr [content_item text])] key_resources) = false := rfl
    simp only [process_schema, process_parsed, content_wrap, process_dict, e1,
      Bool.false_eq_true, if_false]
    simp only [show hasKey [(key_content, JVal.arr [content_item text])] key_result
        = false from rfl, Bool.false_eq_true, if_false]
    simp only [show hasKey [(key_content, JVal.arr [content_item text])] key_content
        = true from rfl, if_true]
    simp only [show jlookup [(key_content, JVal.arr [content_item text])] key_content
        = some (JVal.arr [content_item text]) from rfl, Option.getD_some]
    rw [hsc]
  have hp4 : process_schema (result_wrap (content_wrap text)) =
      Except.ok (JVal.obj fs) := by
    have e1 : (hasKey [(key_result, content_wrap text)] key_tools ||
        hasKey [(key_result, content_wrap text)] key_resources) = false := rfl
    simp only [process_schema, process_parsed, result_wrap, process_dict, e1,
      Bool.false_eq_true, if_false]
    simp only [show hasKey [(key_result, content_wrap text)] key_result = true from rfl,
      if_true,
      show jlookup [(key_result, content_wrap text)] key_result =
        some (content_wrap text) from rfl, Option.getD_some]
    simp only [content_wrap,
      show (hasKey [(key_content, JVal.arr [content_item text])] key_tools &&
        hasKey [(key_content, JVal.arr [content_item text])] key_resources) = false
        from rfl,
      Bool.false_eq_true, if_false,
      show hasKey [(key_content, JVal.arr [content_item text])] key_content = true
        from rfl,
      if_true,
      show jlookup [(key_content, JVal.arr [content_item text])] key_content
        = some (JVal.arr [content_item text]) from rfl, Option.getD_some]
    rw [hsc]
  have hreg : ∀ (s1 s2 : JVal) (regs : Registries),
      process_schema s1 = process_schema s2 →
      register_from_schema s1 regs = register_from_schema s2 regs := by
    intro s1 s2 regs h
    unfold register_from_schema
    rw [h]
  refine ⟨hp1, hp2, hp3, hp4, ?_, ?_, ?_⟩
  · intro regs
    exact ⟨hreg _ _ regs (hp2.trans hp1.symm),
           hreg _ _ regs (hp3.trans hp1.symm),
           hreg _ _ regs (hp4.trans hp1.symm)⟩
  · intro v regs h
    unfold register_from_schema
    rw [h]
  · intro v regs h
    unfold register_from_schema
    rw [h]

/-- Witness for C3's amended theorem on a concrete minimal schema. -/
theorem schema_shape_tolerance_witness :
    jsonLoads demo_schema_text = some (JVal.obj demo_schema_fields) ∧
    hasKey demo_schema_fields key_tools = true ∧
    hasKey demo_schema_fields key_resources = true ∧
    process_schema (content_wrap demo_schema_text) =
      Except.ok (JVal.obj demo_schema_fields) ∧
    register_from_schema (result_wrap (JVal.obj demo_schema_fields)) ⟨[], []⟩ =
      register_from_schema (JVal.obj demo_schema_fields) ⟨[], []⟩ :=
  ⟨rfl, rfl, rfl,
   (schema_shape_tolerance demo_schema_fields demo_schema_text rfl rfl rfl).2.2.1,
   ((schema_shape_tolerance demo_schema_fields demo_schema_text rfl rfl rfl).2.2.2.2.1
     ⟨[], []⟩).1⟩

end YAUM
